import Mathlib

/-!
Shallow embedding of the write-for-california ingestion pipeline
(src/wfc/scraper.py) and the comment watcher (src/wfc/monitor.py),
together with theorems checking the specification's claims about them.

Python dicts are modelled as insertion-ordered association lists,
SQLite tables as association lists keyed by their primary key, and the
network as explicit page-outcome values fed to the functions that the
source would drive with live HTTP responses.
-/

namespace WFC

/-- Generic association-list keys (the key column of a table / dict). -/
def keysOf {κ α : Type} (m : List (κ × α)) : List κ := m.map Prod.fst

/-- Python dict lookup `m.get(k)` on an association list. -/
def lookupKey {κ α : Type} [DecidableEq κ] : List (κ × α) → κ → Option α
  | [], _ => none
  | (k1, v) :: rest, k => if k1 = k then some v else lookupKey rest k

/-- SQLite INSERT OR REPLACE on a primary key: replace the keyed row in
place if present, else append the new row (scraper.py lines 182-198). -/
def upsert {κ α : Type} [DecidableEq κ] : List (κ × α) → κ → α → List (κ × α)
  | [], k, v => [(k, v)]
  | (k1, v1) :: rest, k, v =>
    if k1 = k then (k, v) :: rest else (k1, v1) :: upsert rest k v

/-- Python `commenter_counts[name] = commenter_counts.get(name, 0) + 1`
(scraper.py line 155) on an insertion-ordered association list. -/
def bumpCount : List (String × Nat) → String → List (String × Nat)
  | [], k => [(k, 1)]
  | (k1, v) :: rest, k =>
    if k1 = k then (k1, v + 1) :: rest else (k1, v) :: bumpCount rest k

/-- Sum of the values of a counts dict. -/
def sumVals (m : List (String × Nat)) : Nat := (m.map Prod.snd).sum

/-- A well-formed comment node of the decoded `initialComments` payload:
an optional author name (`c.get('name', 'Unknown')`, scraper.py line 154)
and an optional children list (`if 'children' in c`, line 156). -/
inductive CommentNode where
  | mk (name : Option String) (children : Option (List CommentNode))

/-- The recursive walk `count_comments` of scraper.py lines 152-159:
depth-first, pre-order; every node bumps its author's count, and a
present `children` list is walked before the following siblings. -/
def count_comments : List CommentNode → List (String × Nat) → List (String × Nat)
  | [], m => m
  | CommentNode.mk name none :: rest, m =>
      count_comments rest (bumpCount m (name.getD "Unknown"))
  | CommentNode.mk name (some cs) :: rest, m =>
      count_comments rest (count_comments cs (bumpCount m (name.getD "Unknown")))

/-- Pre-order list of the (defaulted) author names of every node of the
tree, at every depth: the flattened node list of the claim. -/
def flattenNames : List CommentNode → List String
  | [] => []
  | CommentNode.mk name none :: rest => name.getD "Unknown" :: flattenNames rest
  | CommentNode.mk name (some cs) :: rest =>
      name.getD "Unknown" :: (flattenNames cs ++ flattenNames rest)

/-- The aggregation of scraper.py lines 152-160: the per-author counts
dict together with `unique_commenters = len(commenter_counts)`. -/
def aggregate (tree : List CommentNode) : List (String × Nat) × Nat :=
  (count_comments tree [], (count_comments tree []).length)

/-- An element of the decoded `initialComments` JSON list as the walk of
scraper.py sees it: either a JSON object (with optional `name` and
optional `children`) or a non-object value, on which `c.get` raises
`AttributeError` at runtime. -/
inductive CNode where
  | obj (name : Option String) (children : Option (List CNode))
  | nonObj

/-- The walk of scraper.py lines 152-159 over raw decoded JSON, with the
exception behaviour made explicit: visiting a non-object node aborts the
whole walk (the Python `AttributeError` propagates to the enclosing
`except` on line 161), but the counts dict keeps the mutations made
before the abort. The Bool is true when the walk completed. -/
def count_comments_exc : List CNode → List (String × Nat) → List (String × Nat) × Bool
  | [], m => (m, true)
  | CNode.nonObj :: _, m => (m, false)
  | CNode.obj name none :: rest, m =>
      count_comments_exc rest (bumpCount m (name.getD "Unknown"))
  | CNode.obj name (some cs) :: rest, m =>
      match count_comments_exc cs (bumpCount m (name.getD "Unknown")) with
      | (m2, true) => count_comments_exc rest m2
      | (m2, false) => (m2, false)

/-- Cause of a comments-page fetch failure (scraper.py lines 128-140):
a transport error or exhaustion of the three rate-limit retries. -/
inductive FetchFailCause where
  | network
  | rateLimited
  deriving DecidableEq

/-- Outcome of fetching and decoding the comments sub-page
(scraper.py lines 128-148): the fetch may fail, the fetched page may
contain no `JSON.parse` payload, the payload may fail to decode, or it
decodes to an `initialComments` list. -/
inductive CommentsPage where
  | fetchFail (cause : FetchFailCause)
  | noMatch
  | decodeFail
  | payload (initialComments : List CNode)

/-- The pair of commenter fields of a scraped post
(scraper.py lines 125-126, 155, 160). -/
structure CommentsResult where
  commenter_counts : List (String × Nat)
  unique_commenters : Nat
  deriving DecidableEq

/-- The whole comments phase of `scrape_post` (scraper.py lines 124-162):
`commenter_counts = {}` and `unique_commenters = 0` initially; any
exception in the try block is caught, leaving whatever the dict held at
that point and `unique_commenters` untouched at 0; with no `JSON.parse`
match the fields keep their initial values; a decoded payload is walked
and, if the walk completes, `unique_commenters = len(commenter_counts)`. -/
def commentsPhase : CommentsPage → CommentsResult
  | CommentsPage.fetchFail _ => ⟨[], 0⟩
  | CommentsPage.noMatch => ⟨[], 0⟩
  | CommentsPage.decodeFail => ⟨[], 0⟩
  | CommentsPage.payload cs =>
      match count_comments_exc cs [] with
      | (m, true) => ⟨m, m.length⟩
      | (m, false) => ⟨m, 0⟩

/-- Fields read out of the decoded post-page JSON with their defaults
(`post.get('title', '')` etc., scraper.py lines 112-117). -/
structure PostPayload where
  title : String
  post_date : String
  comment_count : Nat
  cover_image : Option String
  deriving DecidableEq

/-- Outcome of fetching and decoding a post page as `scrape_post` sees it
(scraper.py lines 91-122): the fetch may fail (lines 91-96), the page may
contain no `JSON.parse` payload (lines 99-102), the payload may fail to
decode (lines 104-110), or it yields the post fields, the poll id found
in the raw HTML, and the comments sub-page outcome. -/
inductive PostPage where
  | fetchFail
  | noJsonMatch
  | decodeFail
  | ok (payload : PostPayload) (poll_id : Option Nat) (comments : CommentsPage)

/-- The `DBDPost` dataclass of scraper.py lines 22-33. -/
structure DBDPost where
  slug : String
  title : String
  post_date : String
  comment_count : Nat
  unique_commenters : Nat
  cover_image : Option String
  poll_id : Option Nat
  poll_total_votes : Option Nat
  commenter_counts : List (String × Nat)
  deriving DecidableEq

/-- The function `scrape_post` of scraper.py lines 87-174: `None` on
fetch failure, missing payload, or decode failure; otherwise a `DBDPost`
whose commenter fields come from the comments phase and whose
`poll_total_votes` is always `None` (line 122). -/
def scrape_post (slug : String) : PostPage → Option DBDPost
  | PostPage.fetchFail => none
  | PostPage.noJsonMatch => none
  | PostPage.decodeFail => none
  | PostPage.ok pd poll cp =>
      some ⟨slug, pd.title, pd.post_date, pd.comment_count,
            (commentsPhase cp).unique_commenters, pd.cover_image, poll, none,
            (commentsPhase cp).commenter_counts⟩

/-- A row of the `posts` table minus its primary key
(scraper.py lines 44-56). -/
structure PostRow where
  title : String
  post_date : String
  comment_count : Nat
  unique_commenters : Nat
  cover_image : Option String
  poll_id : Option Nat
  poll_total_votes : Option Nat
  scraped_at : String
  deriving DecidableEq

/-- The SQLite database of scraper.py lines 44-66: `posts` keyed by
`slug`, `commenter_activity` keyed by `(slug, username)`. -/
structure DB where
  posts : List (String × PostRow)
  commenter_activity : List ((String × String) × Nat)
  deriving DecidableEq

/-- The freshly initialised database of `init_db`. -/
def empty_db : DB := ⟨[], []⟩

/-- The per-username upsert loop of `save_post`
(scraper.py lines 194-198). -/
def save_activity (slug : String) (counts : List (String × Nat))
    (acc : List ((String × String) × Nat)) : List ((String × String) × Nat) :=
  counts.foldl (fun a uc => upsert a (slug, uc.1) uc.2) acc

/-- The function `save_post` of scraper.py lines 177-201: INSERT OR
REPLACE of the posts row (with `scraped_at = now`), then INSERT OR
REPLACE of one activity row per commenter. -/
def save_post (db : DB) (p : DBDPost) (now : String) : DB :=
  ⟨upsert db.posts p.slug
      ⟨p.title, p.post_date, p.comment_count, p.unique_commenters,
       p.cover_image, p.poll_id, p.poll_total_votes, now⟩,
   save_activity p.slug p.commenter_counts db.commenter_activity⟩

/-- The function `is_post_scraped` of scraper.py lines 204-211:
membership in the posts table. -/
def is_post_scraped (db : DB) (slug : String) : Bool :=
  (lookupKey db.posts slug).isSome

/-- Terminal state of one slug of the `scrape_year` loop. -/
inductive SlugResult where
  | Persisted
  | Failed
  | Skipped
  deriving DecidableEq

/-- Observable outcome of one iteration of the `scrape_year` loop: the
database afterwards, the slug's terminal state, and whether
`time.sleep(delay)` was executed before moving to the next slug. -/
structure StepOut where
  db : DB
  result : SlugResult
  slept : Bool
  deriving DecidableEq

/-- One iteration of the loop of `scrape_year` (scraper.py lines
221-233): an already-scraped slug under `skip_existing` hits `continue`
(line 224), which jumps to the next slug without reaching
`time.sleep(delay)` (line 233); otherwise the slug is scraped, saved
when the scrape returned a post, and the sleep runs in either case. -/
def scrape_year_step (db : DB) (skip_existing : Bool) (slug : String)
    (page : PostPage) (now : String) : StepOut :=
  if skip_existing && is_post_scraped db slug then
    ⟨db, SlugResult.Skipped, false⟩
  else
    match scrape_post slug page with
    | some p => ⟨save_post db p now, SlugResult.Persisted, true⟩
    | none => ⟨db, SlugResult.Failed, true⟩

/-- The check `requests.Response.raise_for_status` performs: an HTTP
status in the 4xx or 5xx range raises. -/
def raise_for_status (code : Nat) : Bool := decide (400 ≤ code ∧ code < 600)

/-- Outcome of the comments-page fetch loop, carrying the number of GET
attempts made and the total seconds spent in `time.sleep` backoff. -/
inductive FetchOutcome where
  | success (attempts : Nat) (totalWait : Nat)
  | httpError (status : Nat) (totalWait : Nat)
  | rateLimitedFail (totalWait : Nat)
  deriving DecidableEq

/-- The retry loop of scraper.py lines 130-140: `for attempt in
range(3)`, a 429 response sleeps `(attempt + 1) * 5` seconds and retries,
any other status goes through `raise_for_status` and on success breaks;
falling off the loop raises "Rate limited after 3 retries". The
`responses` function gives the status code of each attempt. -/
def fetch_comments_retry (responses : Nat → Nat) (attempt : Nat)
    (waited : Nat) : FetchOutcome :=
  if h : attempt < 3 then
    if responses attempt = 429 then
      fetch_comments_retry responses (attempt + 1) (waited + (attempt + 1) * 5)
    else if raise_for_status (responses attempt) then
      FetchOutcome.httpError (responses attempt) waited
    else FetchOutcome.success (attempt + 1) waited
  else FetchOutcome.rateLimitedFail waited
termination_by 3 - attempt
decreasing_by omega

/-- The sitemap slug discovery `get_all_dbd_slugs` of scraper.py lines
72-78, given the list of regex matches found in the sitemap body:
Python `sorted(set(slugs))`. -/
def get_all_dbd_slugs (found : List String) : List String :=
  found.dedup.mergeSort

/-- In-memory and on-file state of the watcher loop of monitor.py:
`current_url` (None at start, line 46) and the two-line state file
(url, count) read by `read_state`. -/
structure WatchState where
  current_url : Option String
  stored_url : String
  stored_count : Nat
  deriving DecidableEq

/-- Observable outcome of one watcher cycle: the state afterwards, the
notifications emitted, and which `save_state` writes happened. -/
structure CycleOut where
  current_url : String
  stored_url : String
  stored_count : Nat
  new_post_notified : Bool
  comment_notified : Option Nat
  wrote_reset : Bool
  wrote_count : Bool
  deriving DecidableEq

/-- One cycle of the watcher loop of monitor.py lines 62-107, for a
cycle in which the latest-post resolution and the comment-count fetch
both succeed. A changed target notifies "new post" (only when
`current_url` was not None, line 65) and writes `(target, 0)` to the
state file (line 78); then the state file is read back, the baseline is
zeroed if its url differs from the target (lines 90-91), and a strictly
greater fetched count notifies the delta — unless the baseline is 0
(line 96) — and writes `(target, count)` (line 103); otherwise nothing
is written. -/
def watch_cycle (s : WatchState) (latest : String) (new_count : Nat) :
    CycleOut :=
  let notifyNew := decide (s.current_url ≠ some latest ∧ s.current_url ≠ none)
  let wroteReset := decide (s.current_url ≠ some latest)
  let su := if s.current_url = some latest then s.stored_url else latest
  let sc := if s.current_url = some latest then s.stored_count else 0
  let old_count := if su = latest then sc else 0
  if old_count < new_count then
    ⟨latest, latest, new_count, notifyNew,
     if 0 < old_count then some (new_count - old_count) else none,
     wroteReset, true⟩
  else ⟨latest, su, sc, notifyNew, none, wroteReset, false⟩

/-- The in-memory and persisted state with which the next cycle starts. -/
def next_watch_state (o : CycleOut) : WatchState :=
  ⟨some o.current_url, o.stored_url, o.stored_count⟩

/-- The baseline against which the fetched count is compared, after the
possible reset write and the url-mismatch zeroing of a cycle. -/
def effective_baseline (s : WatchState) (latest : String) : Nat :=
  if s.current_url = some latest then
    (if s.stored_url = latest then s.stored_count else 0)
  else 0

/-- State-file contents after the reset phase of a cycle, before the
count comparison. -/
def state_after_reset (s : WatchState) (latest : String) : String × Nat :=
  if s.current_url = some latest then (s.stored_url, s.stored_count)
  else (latest, 0)

/-- Sum of the activity-table counts recorded for one slug. -/
def author_sum (db : DB) (slug : String) : Nat :=
  ((db.commenter_activity.filter (fun r => decide (r.1.1 = slug))).map
    Prod.snd).sum

/-! Helper lemmas about the association-list dictionary operations. -/

theorem keysOf_nil {κ α : Type} : keysOf ([] : List (κ × α)) = [] := rfl

theorem keysOf_cons {κ α : Type} (p : κ × α) (tl : List (κ × α)) :
    keysOf (p :: tl) = p.1 :: keysOf tl := rfl

theorem bumpCount_sum (m : List (String × Nat)) (k : String) :
    sumVals (bumpCount m k) = sumVals m + 1 := by
  induction m with
  | nil => simp [bumpCount, sumVals]
  | cons hd tl ih =>
    obtain ⟨k1, v⟩ := hd
    by_cases h : k1 = k <;> simp [bumpCount, h, sumVals] at ih ⊢ <;> omega

theorem bumpCount_keys (m : List (String × Nat)) (k : String) :
    keysOf (bumpCount m k) =
      if k ∈ keysOf m then keysOf m else keysOf m ++ [k] := by
  induction m with
  | nil => simp [bumpCount, keysOf]
  | cons hd tl ih =>
    obtain ⟨k1, v⟩ := hd
    by_cases hk : k1 = k
    · subst hk
      simp [bumpCount, keysOf_cons]
    · simp only [bumpCount, if_neg hk, keysOf_cons, ih]
      have hne : ¬(k = k1) := fun h => hk h.symm
      by_cases hm : k ∈ keysOf tl <;> simp [hm, hne]

theorem bumpCount_keys_nodup (m : List (String × Nat)) (k : String)
    (h : (keysOf m).Nodup) : (keysOf (bumpCount m k)).Nodup := by
  rw [bumpCount_keys]
  by_cases hm : k ∈ keysOf m <;>
    simp [hm, h, List.nodup_append, List.disjoint_singleton]

theorem bumpCount_keys_mem (m : List (String × Nat)) (k x : String) :
    x ∈ keysOf (bumpCount m k) ↔ x ∈ keysOf m ∨ x = k := by
  rw [bumpCount_keys]
  by_cases hm : k ∈ keysOf m
  · simp only [if_pos hm]
    constructor
    · exact Or.inl
    · rintro (h | rfl)
      · exact h
      · exact hm
  · simp [if_neg hm]

/-! Helper lemmas about the well-formed comment-tree walk. -/

theorem count_comments_sum (ts : List CommentNode) (m : List (String × Nat)) :
    sumVals (count_comments ts m) = sumVals m + (flattenNames ts).length := by
  induction ts, m using count_comments.induct with
  | case1 m => simp [count_comments, flattenNames]
  | case2 name rest m ih =>
    simp [count_comments, flattenNames, ih, bumpCount_sum]; omega
  | case3 name cs rest m ih1 ih2 =>
    simp [count_comments, flattenNames, ih1, ih2, bumpCount_sum]; omega

theorem count_comments_keys_mem (ts : List CommentNode) (m : List (String × Nat))
    (x : String) :
    x ∈ keysOf (count_comments ts m) ↔ x ∈ keysOf m ∨ x ∈ flattenNames ts := by
  induction ts, m using count_comments.induct with
  | case1 m => simp [count_comments, flattenNames]
  | case2 name rest m ih =>
    simp only [count_comments, flattenNames, List.mem_cons] at ih ⊢
    rw [ih, bumpCount_keys_mem]
    tauto
  | case3 name cs rest m ih1 ih2 =>
    simp only [count_comments, flattenNames, List.mem_cons, List.mem_append] at ih1 ih2 ⊢
    rw [ih2, ih1, bumpCount_keys_mem]
    tauto

theorem count_comments_keys_nodup (ts : List CommentNode)
    (m : List (String × Nat)) (h : (keysOf m).Nodup) :
    (keysOf (count_comments ts m)).Nodup := by
  induction ts, m using count_comments.induct with
  | case1 m => simpa [count_comments] using h
  | case2 name rest m ih =>
    simp only [count_comments]
    exact ih (bumpCount_keys_nodup _ _ h)
  | case3 name cs rest m ih1 ih2 =>
    simp only [count_comments]
    exact ih2 (ih1 (bumpCount_keys_nodup _ _ h))

/-- Claim C3: for every well-formed comment tree, the aggregation of
scraper.py lines 152-160 returns a distinct-author count equal to the
number of unique names in the flattened node list, the sum of the
returned per-author counts equals the total number of nodes, and the
tree [{name:"a"},{name:"b",children:[{name:"a"}]}] aggregates to
{a:2, b:1} with distinct count 2. -/
theorem aggregate_correct :
    (∀ ts : List CommentNode,
      (aggregate ts).2 = ((flattenNames ts).dedup).length ∧
      sumVals (aggregate ts).1 = (flattenNames ts).length) ∧
    aggregate
      [CommentNode.mk (some "a") none,
       CommentNode.mk (some "b") (some [CommentNode.mk (some "a") none])]
      = ([("a", 2), ("b", 1)], 2) := by
  constructor
  · intro ts
    constructor
    · have hlen : (count_comments ts []).length
          = (keysOf (count_comments ts [])).length := by
        simp [keysOf]
      have hnodup : (keysOf (count_comments ts [])).Nodup :=
        count_comments_keys_nodup ts [] (by simp [keysOf])
      have hmem : ∀ x, x ∈ keysOf (count_comments ts [])
          ↔ x ∈ (flattenNames ts).dedup := by
        intro x
        rw [count_comments_keys_mem, List.mem_dedup]
        simp [keysOf]
      have hperm : List.Perm (keysOf (count_comments ts []))
          ((flattenNames ts).dedup) :=
        (List.perm_ext_iff_of_nodup hnodup (List.nodup_dedup _)).2 hmem
      simpa [aggregate, hlen] using hperm.length_eq
    · have := count_comments_sum ts []
      simpa [aggregate, sumVals] using this
  · show (count_comments _ [], _) = _
    rw [show count_comments
        [CommentNode.mk (some "a") none,
         CommentNode.mk (some "b") (some [CommentNode.mk (some "a") none])] []
        = [("a", 2), ("b", 1)] by
      simp [count_comments, bumpCount]]
    rfl

/-- Claim C9: for every sitemap input, slug discovery returns a list
with no duplicate entries that is sorted in lexicographic order, even
when the same slug appears multiple times in the sitemap; its elements
are exactly the matched slugs, and an empty result is valid. -/
theorem list_slugs_sorted_nodup (found : List String) :
    (get_all_dbd_slugs found).Nodup ∧
    List.Sorted (fun a b : String => a ≤ b) (get_all_dbd_slugs found) ∧
    (∀ x, x ∈ get_all_dbd_slugs found ↔ x ∈ found) ∧
    get_all_dbd_slugs [] = [] := by
  have hperm : List.Perm (get_all_dbd_slugs found) found.dedup :=
    List.mergeSort_perm found.dedup _
  refine ⟨hperm.nodup_iff.mpr (List.nodup_dedup found), ?_, ?_, ?_⟩
  · exact List.sorted_mergeSort' found.dedup
  · intro x
    rw [hperm.mem_iff, List.mem_dedup]
  · have : List.Perm (get_all_dbd_slugs []) ([] : List String).dedup :=
      List.mergeSort_perm _ _
    simpa using this.eq_nil

/-- Claim C1 counterexample: a slug whose post page is fetched
successfully but contains no JSON.parse payload is NOT recorded:
`scrape_post` returns None (scraper.py lines 100-102), the loop body of
`scrape_year` saves nothing, and the slug ends Failed, not Persisted. -/
theorem scraper_no_payload_cex :
    scrape_post "dbd-01-01-2025-x" PostPage.noJsonMatch = none ∧
    (scrape_year_step empty_db true "dbd-01-01-2025-x" PostPage.noJsonMatch
        "2026-01-01").result = SlugResult.Failed ∧
    (scrape_year_step empty_db true "dbd-01-01-2025-x" PostPage.noJsonMatch
        "2026-01-01").db.posts = [] :=
  ⟨rfl, rfl, rfl⟩

/-- Claim C1 (amended): for every slug whose post page is fetched
successfully but contains no JSON.parse payload, `scrape_post` returns
None, the database is left unchanged, and the per-slug pipeline ends in
the Failed state — the missing payload is treated like a failure, not
recorded with empty fields. -/
theorem scraper_no_payload_returns_none (slug now : String) (db : DB) :
    scrape_post slug PostPage.noJsonMatch = none ∧
    (scrape_year_step db false slug PostPage.noJsonMatch now).result
        = SlugResult.Failed ∧
    (scrape_year_step db false slug PostPage.noJsonMatch now).db = db := by
  refine ⟨rfl, ?_, ?_⟩ <;> simp [scrape_year_step, scrape_post]

/-- Claim C6 counterexample: a slug already present in the posts table,
processed with skip_existing enabled, ends Skipped and the loop body
reaches `continue` (scraper.py line 224) without executing
`time.sleep(delay)` (line 233): the inter-slug delay IS skipped. -/
theorem skip_existing_no_sleep_cex :
    (scrape_year_step
        ⟨[("dbd-01-01-2025-x", ⟨"", "", 0, 0, none, none, none, "t"⟩)], []⟩
        true "dbd-01-01-2025-x" PostPage.fetchFail "t").result
      = SlugResult.Skipped ∧
    (scrape_year_step
        ⟨[("dbd-01-01-2025-x", ⟨"", "", 0, 0, none, none, none, "t"⟩)], []⟩
        true "dbd-01-01-2025-x" PostPage.fetchFail "t").slept = false := by
  refine ⟨rfl, rfl⟩

/-- Claim C6 (amended): the orchestrator sleeps the configured delay
after every slug that ends Persisted or Failed, but a Skipped slug
(already ingested with skip-existing enabled) hits `continue` before the
sleep, so the inter-slug delay runs exactly when the slug was not
skipped. -/
theorem sleep_iff_not_skipped (db : DB) (skip : Bool) (slug now : String)
    (page : PostPage) :
    (scrape_year_step db skip slug page now).slept
      = decide ((scrape_year_step db skip slug page now).result
          ≠ SlugResult.Skipped) := by
  by_cases h : (skip && is_post_scraped db slug) = true
  · simp [scrape_year_step, h]
  · simp only [scrape_year_step, h]
    cases scrape_post slug page <;> simp

/-- Claim C4: on HTTP 429 the comments fetch sleeps `(attempt + 1) * 5`
seconds and retries, for at most 3 attempts (scraper.py lines 130-140);
with 429 on attempts 1 and 2 and a 200 on attempt 3 the fetch succeeds
after a total wait of 5 + 10 seconds, and with 429 on all three attempts
it fails with the rate-limited error. -/
theorem fetch_retry_backoff :
    fetch_comments_retry (fun i => if i = 2 then 200 else 429) 0 0
        = FetchOutcome.success 3 (5 + 10) ∧
    (∀ responses : Nat → Nat, (∀ i, i < 3 → responses i = 429) →
      fetch_comments_retry responses 0 0
        = FetchOutcome.rateLimitedFail (5 + 10 + 15)) := by
  constructor
  · simp [fetch_comments_retry, raise_for_status]
  · intro responses h
    have h0 := h 0 (by omega)
    have h1 := h 1 (by omega)
    have h2 := h 2 (by omega)
    simp [fetch_comments_retry, h0, h1, h2]

/-- Witness for fetch_retry_backoff: three straight 429 responses
exhaust the retries and fail rate-limited after 5 + 10 + 15 seconds of
backoff. -/
theorem fetch_retry_backoff_witness :
    fetch_comments_retry (fun _ => 429) 0 0
      = FetchOutcome.rateLimitedFail (5 + 10 + 15) :=
  fetch_retry_backoff.2 (fun _ => 429) (fun _ _ => rfl)

/-! Helper lemmas about upsert (INSERT OR REPLACE) and the save path. -/

theorem upsert_keys {κ α : Type} [DecidableEq κ] (m : List (κ × α)) (k : κ)
    (v : α) :
    keysOf (upsert m k v) = if k ∈ keysOf m then keysOf m else keysOf m ++ [k] := by
  induction m with
  | nil => simp [upsert, keysOf]
  | cons hd tl ih =>
    obtain ⟨k1, v1⟩ := hd
    by_cases hk : k1 = k
    · subst hk
      simp [upsert, keysOf_cons]
    · simp only [upsert, if_neg hk, keysOf_cons, ih]
      have hne : ¬(k = k1) := fun h => hk h.symm
      by_cases hm : k ∈ keysOf tl <;> simp [hm, hne]

theorem upsert_keys_nodup {κ α : Type} [DecidableEq κ] (m : List (κ × α))
    (k : κ) (v : α) (h : (keysOf m).Nodup) : (keysOf (upsert m k v)).Nodup := by
  rw [upsert_keys]
  by_cases hm : k ∈ keysOf m <;>
    simp [hm, h, List.nodup_append, List.disjoint_singleton]

theorem mem_keys_upsert_self {κ α : Type} [DecidableEq κ] (m : List (κ × α))
    (k : κ) (v : α) : k ∈ keysOf (upsert m k v) := by
  rw [upsert_keys]
  by_cases hm : k ∈ keysOf m <;> simp [hm]

theorem lookupKey_upsert_self {κ α : Type} [DecidableEq κ] (m : List (κ × α))
    (k : κ) (v : α) : lookupKey (upsert m k v) k = some v := by
  induction m with
  | nil => simp [upsert, lookupKey]
  | cons hd tl ih =>
    obtain ⟨k1, v1⟩ := hd
    by_cases hk : k1 = k <;> simp [upsert, lookupKey, hk, ih]

theorem lookupKey_upsert_other {κ α : Type} [DecidableEq κ] (m : List (κ × α))
    (k k' : κ) (v : α) (h : k' ≠ k) :
    lookupKey (upsert m k v) k' = lookupKey m k' := by
  induction m with
  | nil => simp [upsert, lookupKey, Ne.symm h]
  | cons hd tl ih =>
    obtain ⟨k1, v1⟩ := hd
    by_cases hk : k1 = k
    · subst hk
      simp [upsert, lookupKey, Ne.symm h]
    · simp [upsert, lookupKey, hk, ih]

theorem upsert_lookup_eq {κ α : Type} [DecidableEq κ] (m : List (κ × α))
    (k : κ) (v : α) (hn : (keysOf m).Nodup) (hl : lookupKey m k = some v) :
    upsert m k v = m := by
  induction m with
  | nil => simp [lookupKey] at hl
  | cons hd tl ih =>
    obtain ⟨k1, v1⟩ := hd
    rw [keysOf_cons] at hn
    by_cases hk : k1 = k
    · subst hk
      simp only [lookupKey, if_pos rfl] at hl
      obtain rfl : v1 = v := Option.some.inj hl
      simp [upsert]
    · simp only [lookupKey, if_neg hk] at hl
      simp [upsert, if_neg hk, ih (List.Nodup.of_cons hn) hl]

theorem filter_key_nil {κ α : Type} [DecidableEq κ] (m : List (κ × α)) (k : κ)
    (h : k ∉ keysOf m) : m.filter (fun r => decide (r.1 = k)) = [] := by
  induction m with
  | nil => rfl
  | cons hd tl ih =>
    rw [keysOf_cons, List.mem_cons] at h
    push_neg at h
    have hne : ¬(hd.1 = k) := fun hh => h.1 hh.symm
    simp [List.filter, hne, ih h.2]

theorem filter_key_length_one {κ α : Type} [DecidableEq κ] (m : List (κ × α))
    (k : κ) (hn : (keysOf m).Nodup) (hk : k ∈ keysOf m) :
    (m.filter (fun r => decide (r.1 = k))).length = 1 := by
  induction m with
  | nil => simp [keysOf] at hk
  | cons hd tl ih =>
    rw [keysOf_cons] at hn hk
    rcases List.mem_cons.mp hk with h1 | h1
    · have htl : k ∉ keysOf tl := by
        rw [← h1] at hn
        exact (List.nodup_cons.mp hn).1
      simp [List.filter, h1.symm, filter_key_nil tl k htl]
    · have hne : ¬(hd.1 = k) := by
        intro hh
        rw [hh] at hn
        exact (List.nodup_cons.mp hn).1 h1
      simp [List.filter, hne, ih (List.nodup_cons.mp hn).2 h1]

theorem save_activity_nil (slug : String)
    (acc : List ((String × String) × Nat)) :
    save_activity slug [] acc = acc := rfl

theorem save_activity_cons (slug : String) (uc : String × Nat)
    (tl : List (String × Nat)) (acc : List ((String × String) × Nat)) :
    save_activity slug (uc :: tl) acc
      = save_activity slug tl (upsert acc (slug, uc.1) uc.2) := rfl

theorem save_activity_keys_nodup (slug : String) (counts : List (String × Nat))
    (acc : List ((String × String) × Nat)) (h : (keysOf acc).Nodup) :
    (keysOf (save_activity slug counts acc)).Nodup := by
  induction counts generalizing acc with
  | nil => simpa [save_activity_nil] using h
  | cons uc tl ih =>
    rw [save_activity_cons]
    exact ih _ (upsert_keys_nodup _ _ _ h)

theorem save_activity_lookup_not_mem (slug : String)
    (counts : List (String × Nat)) (acc : List ((String × String) × Nat))
    (k : String × String) (h : ∀ uc ∈ counts, k ≠ (slug, uc.1)) :
    lookupKey (save_activity slug counts acc) k = lookupKey acc k := by
  induction counts generalizing acc with
  | nil => rfl
  | cons uc tl ih =>
    rw [save_activity_cons,
      ih _ (fun x hx => h x (List.mem_cons_of_mem uc hx)),
      lookupKey_upsert_other _ _ _ _ (h uc (List.mem_cons_self uc tl))]

theorem save_activity_lookup_mem (slug : String) (counts : List (String × Nat))
    (acc : List ((String × String) × Nat)) (u : String) (c : Nat)
    (hn : (counts.map Prod.fst).Nodup) (hm : (u, c) ∈ counts) :
    lookupKey (save_activity slug counts acc) (slug, u) = some c := by
  induction counts generalizing acc with
  | nil => simp at hm
  | cons uc tl ih =>
    rcases List.mem_cons.mp hm with h1 | h1
    · cases h1
      rw [List.map_cons] at hn
      have hu : u ∉ tl.map Prod.fst := (List.nodup_cons.mp hn).1
      have hne : ∀ x ∈ tl, (slug, u) ≠ (slug, x.1) := by
        intro x hx heq
        have hux : u = x.1 := congrArg Prod.snd heq
        exact hu (hux ▸ List.mem_map_of_mem Prod.fst hx)
      rw [save_activity_cons, save_activity_lookup_not_mem slug tl _ _ hne]
      exact lookupKey_upsert_self acc (slug, u) c
    · rw [save_activity_cons]
      rw [List.map_cons] at hn
      exact ih _ (List.nodup_cons.mp hn).2 h1

theorem save_activity_idem (slug : String) (counts : List (String × Nat))
    (acc : List ((String × String) × Nat))
    (hn : (counts.map Prod.fst).Nodup) (ha : (keysOf acc).Nodup) :
    save_activity slug counts (save_activity slug counts acc)
      = save_activity slug counts acc := by
  induction counts generalizing acc with
  | nil => rfl
  | cons uc tl ih =>
    obtain ⟨u, c⟩ := uc
    have hMn : (keysOf (save_activity slug ((u, c) :: tl) acc)).Nodup :=
      save_activity_keys_nodup slug _ acc ha
    have hMl : lookupKey (save_activity slug ((u, c) :: tl) acc) (slug, u)
        = some c :=
      save_activity_lookup_mem slug _ acc u c hn (List.mem_cons_self _ _)
    rw [save_activity_cons, upsert_lookup_eq _ _ _ hMn hMl, save_activity_cons]
    rw [List.map_cons] at hn
    exact ih _ (List.nodup_cons.mp hn).2 (upsert_keys_nodup _ _ _ ha)

/-- Claim C5: re-ingesting the same slug twice with identical source
content is idempotent: the posts table ends with exactly one row for
that slug, both tables keep unique primary keys (no duplicate rows), the
activity table is unchanged by the second ingestion, and in particular
the sum of per-author counts for that slug is unchanged. The
hypotheses say the tables' primary keys are unique beforehand (the
store's invariant) and the post's per-author dict has unique keys (true
of every Python dict). -/
theorem save_post_idempotent (db : DB) (p : DBDPost) (t1 t2 : String)
    (hp : (keysOf db.posts).Nodup)
    (ha : (keysOf db.commenter_activity).Nodup)
    (hc : (p.commenter_counts.map Prod.fst).Nodup) :
    ((save_post (save_post db p t1) p t2).posts.filter
        (fun r => decide (r.1 = p.slug))).length = 1 ∧
    (keysOf (save_post (save_post db p t1) p t2).posts).Nodup ∧
    (keysOf (save_post (save_post db p t1) p t2).commenter_activity).Nodup ∧
    (save_post (save_post db p t1) p t2).commenter_activity
        = (save_post db p t1).commenter_activity ∧
    author_sum (save_post (save_post db p t1) p t2) p.slug
        = author_sum (save_post db p t1) p.slug := by
  have hact : (save_post (save_post db p t1) p t2).commenter_activity
      = (save_post db p t1).commenter_activity :=
    save_activity_idem p.slug p.commenter_counts db.commenter_activity hc ha
  have hpn : (keysOf (save_post (save_post db p t1) p t2).posts).Nodup :=
    upsert_keys_nodup _ _ _ (upsert_keys_nodup _ _ _ hp)
  refine ⟨?_, hpn, ?_, hact, ?_⟩
  · exact filter_key_length_one _ _ hpn (mem_keys_upsert_self _ _ _)
  · exact hact ▸ save_activity_keys_nodup _ _ _ ha
  · simp [author_sum, hact]

/-- Witness for save_post_idempotent at a concrete database and post. -/
theorem save_post_idempotent_witness :
    ((save_post (save_post empty_db
        ⟨"dbd-01-01-2025-x", "T", "2025-01-01", 3, 2, none, none, none,
         [("a", 2), ("b", 1)]⟩ "t1")
        ⟨"dbd-01-01-2025-x", "T", "2025-01-01", 3, 2, none, none, none,
         [("a", 2), ("b", 1)]⟩ "t2").posts.filter
        (fun r => decide (r.1 = "dbd-01-01-2025-x"))).length = 1 ∧
    author_sum (save_post (save_post empty_db
        ⟨"dbd-01-01-2025-x", "T", "2025-01-01", 3, 2, none, none, none,
         [("a", 2), ("b", 1)]⟩ "t1")
        ⟨"dbd-01-01-2025-x", "T", "2025-01-01", 3, 2, none, none, none,
         [("a", 2), ("b", 1)]⟩ "t2") "dbd-01-01-2025-x"
      = author_sum (save_post empty_db
        ⟨"dbd-01-01-2025-x", "T", "2025-01-01", 3, 2, none, none, none,
         [("a", 2), ("b", 1)]⟩ "t1") "dbd-01-01-2025-x" := by
  have h := save_post_idempotent empty_db
    ⟨"dbd-01-01-2025-x", "T", "2025-01-01", 3, 2, none, none, none,
     [("a", 2), ("b", 1)]⟩ "t1" "t2"
    (by simp [empty_db, keysOf]) (by simp [empty_db, keysOf]) (by simp)
  exact ⟨h.1, h.2.2.2.2⟩

/-- Claim C2: for every slug whose post page fetch and extraction
succeed, a failure while fetching or decoding the comments sub-page
(network error, rate-limit exhaustion, or decode error) is caught, and
the post is still persisted with unique_commenters = 0 and an empty
author-activity table: the loop step ends Persisted, the posts table
gains the row (with zero unique commenters), and the activity table is
untouched. -/
theorem scraper_comment_failure_persists (pd : PostPayload) (poll : Option Nat)
    (cp : CommentsPage) (db : DB) (slug now : String)
    (hfail : (∃ cause, cp = CommentsPage.fetchFail cause) ∨
      cp = CommentsPage.decodeFail) :
    ∃ p : DBDPost,
      scrape_post slug (PostPage.ok pd poll cp) = some p ∧
      p.unique_commenters = 0 ∧
      p.commenter_counts = [] ∧
      (scrape_year_step db false slug (PostPage.ok pd poll cp) now).result
          = SlugResult.Persisted ∧
      lookupKey (scrape_year_step db false slug (PostPage.ok pd poll cp)
          now).db.posts slug
        = some ⟨pd.title, pd.post_date, pd.comment_count, 0, pd.cover_image,
                poll, none, now⟩ ∧
      (scrape_year_step db false slug (PostPage.ok pd poll cp)
          now).db.commenter_activity = db.commenter_activity := by
  have hphase : commentsPhase cp = ⟨[], 0⟩ := by
    rcases hfail with ⟨cause, rfl⟩ | rfl <;> rfl
  refine ⟨⟨slug, pd.title, pd.post_date, pd.comment_count, 0, pd.cover_image,
           poll, none, []⟩, ?_, rfl, rfl, ?_, ?_, ?_⟩
  · simp [scrape_post, hphase]
  · simp [scrape_year_step, scrape_post, hphase]
  · simp [scrape_year_step, scrape_post, hphase, save_post,
      lookupKey_upsert_self]
  · simp [scrape_year_step, scrape_post, hphase, save_post, save_activity_nil]

/-- Witness for scraper_comment_failure_persists: a rate-limited
comments fetch on a successfully extracted post page still ends
Persisted with a zero-commenter row. -/
theorem scraper_comment_failure_persists_witness :
    ∃ p : DBDPost,
      scrape_post "dbd-01-01-2025-x"
          (PostPage.ok ⟨"T", "2025-01-01", 4, none⟩ none
            (CommentsPage.fetchFail FetchFailCause.rateLimited)) = some p ∧
      p.unique_commenters = 0 ∧
      p.commenter_counts = [] ∧
      (scrape_year_step empty_db false "dbd-01-01-2025-x"
          (PostPage.ok ⟨"T", "2025-01-01", 4, none⟩ none
            (CommentsPage.fetchFail FetchFailCause.rateLimited)) "t").result
          = SlugResult.Persisted ∧
      lookupKey (scrape_year_step empty_db false "dbd-01-01-2025-x"
          (PostPage.ok ⟨"T", "2025-01-01", 4, none⟩ none
            (CommentsPage.fetchFail FetchFailCause.rateLimited))
          "t").db.posts "dbd-01-01-2025-x"
        = some ⟨"T", "2025-01-01", 4, 0, none, none, none, "t"⟩ ∧
      (scrape_year_step empty_db false "dbd-01-01-2025-x"
          (PostPage.ok ⟨"T", "2025-01-01", 4, none⟩ none
            (CommentsPage.fetchFail FetchFailCause.rateLimited))
          "t").db.commenter_activity = empty_db.commenter_activity :=
  scraper_comment_failure_persists ⟨"T", "2025-01-01", 4, none⟩ none
    (CommentsPage.fetchFail FetchFailCause.rateLimited) empty_db
    "dbd-01-01-2025-x" "t" (Or.inl ⟨FetchFailCause.rateLimited, rfl⟩)

/-- Claim C7 counterexample: after the baseline reset caused by a post
switch, a first observed count of 0 followed by a strictly greater
observed count of 3 emits no "new comments" notification at all: the
delta emission of monitor.py line 97 is guarded by `old_count > 0`
(line 96), so what is suppressed is the first INCREASE after a reset,
not merely the first observation, and the claim's "a subsequent strictly
greater observed count emits a notification with the delta" fails here. -/
theorem monitor_zero_first_count_cex :
    (watch_cycle (next_watch_state
        (watch_cycle ⟨some "dbd-old", "dbd-old", 7⟩ "dbd-new" 0))
        "dbd-new" 3).comment_notified = none ∧
    (watch_cycle ⟨some "dbd-old", "dbd-old", 7⟩ "dbd-new" 0).comment_notified
      = none ∧
    (0 : Nat) < 3 :=
  ⟨rfl, rfl, by omega⟩

/-- Claim C7 (amended): in the watcher, after the baseline is reset on a
post switch, the first observed comment count never emits a "new
comments" notification, whatever its value; and provided that first
observed count is positive (e.g. 5), it becomes the stored baseline and
a subsequent strictly greater observed count (e.g. 8) emits a
notification with the delta (+3) and updates the stored baseline. (When
the first observed count is 0 the baseline stays 0 and the following
increase is itself suppressed by the `old_count > 0` guard.) -/
theorem monitor_suppress_then_emit (s : WatchState) (latest : String)
    (c1 c2 : Nat) (hswitch : s.current_url ≠ some latest)
    (h1 : 0 < c1) (h12 : c1 < c2) :
    (∀ c : Nat, (watch_cycle s latest c).comment_notified = none) ∧
    (watch_cycle s latest c1).stored_url = latest ∧
    (watch_cycle s latest c1).stored_count = c1 ∧
    (watch_cycle (next_watch_state (watch_cycle s latest c1)) latest
        c2).comment_notified = some (c2 - c1) ∧
    (watch_cycle (next_watch_state (watch_cycle s latest c1)) latest
        c2).stored_count = c2 := by
  refine ⟨?_, ?_, ?_, ?_, ?_⟩
  · intro c
    by_cases hc : (0 : Nat) < c <;> simp [watch_cycle, hswitch, hc]
  · simp [watch_cycle, hswitch, h1]
  · simp [watch_cycle, hswitch, h1]
  · simp [watch_cycle, next_watch_state, hswitch, h1, h12]
  · simp [watch_cycle, next_watch_state, hswitch, h1, h12]

/-- Witness for monitor_suppress_then_emit: the spec scenario — reset,
observe 5 (no notification, baseline becomes 5), observe 8 (notification
with delta 3). -/
theorem monitor_suppress_then_emit_witness :
    (watch_cycle ⟨none, "", 0⟩ "dbd-new" 5).comment_notified = none ∧
    (watch_cycle (next_watch_state (watch_cycle ⟨none, "", 0⟩ "dbd-new" 5))
        "dbd-new" 8).comment_notified = some 3 := by
  have h := monitor_suppress_then_emit ⟨none, "", 0⟩ "dbd-new" 5 8
    (by simp) (by omega) (by omega)
  exact ⟨h.1 5, h.2.2.2.1⟩

/-- Claim C8 counterexample: a watcher cycle that successfully fetches a
comment count equal to (or below) the stored baseline persists nothing:
`save_state` (monitor.py line 103) runs only inside the
`new_count > old_count` branch, so with baseline 5 and fetched count 3
no write happens and the state file keeps the stale pair (target, 5)
instead of (target, 3). -/
theorem monitor_no_write_on_no_growth_cex :
    (watch_cycle ⟨some "dbd-u", "dbd-u", 5⟩ "dbd-u" 5).wrote_count = false ∧
    (watch_cycle ⟨some "dbd-u", "dbd-u", 5⟩ "dbd-u" 5).wrote_reset = false ∧
    (watch_cycle ⟨some "dbd-u", "dbd-u", 5⟩ "dbd-u" 3).wrote_count = false ∧
    (watch_cycle ⟨some "dbd-u", "dbd-u", 5⟩ "dbd-u" 3).stored_count = 5 :=
  ⟨rfl, rfl, rfl, rfl⟩

/-- Claim C8 (amended): in a watcher cycle that successfully fetches a
comment count, the (target, count) pair is written to the state file
before the sleep exactly when the fetched count strictly exceeds the
effective baseline; on a post switch the pair (target, 0) is written by
the reset; in all other cases nothing is written that cycle and the
state file keeps its previous contents. -/
theorem monitor_write_only_on_growth (s : WatchState) (latest : String)
    (c : Nat) :
    (watch_cycle s latest c).wrote_count
        = decide (effective_baseline s latest < c) ∧
    (watch_cycle s latest c).wrote_reset
        = decide (s.current_url ≠ some latest) ∧
    ((watch_cycle s latest c).stored_url,
     (watch_cycle s latest c).stored_count)
        = (if effective_baseline s latest < c then (latest, c)
           else state_after_reset s latest) := by
  by_cases hs : s.current_url = some latest <;>
    simp only [watch_cycle, effective_baseline, state_after_reset, hs,
      if_pos, if_neg, if_true, if_false, ite_true, ite_false, ne_eq,
      not_false_eq_true, not_true_eq_false, decide_not] <;>
    split <;> simp_all <;> split <;> simp_all

theorem count_comments_exc_keys_nodup (ts : List CNode)
    (m : List (String × Nat)) (h : (keysOf m).Nodup) :
    (keysOf (count_comments_exc ts m).1).Nodup := by
  induction ts, m using count_comments_exc.induct with
  | case1 m => simpa [count_comments_exc] using h
  | case2 tail m => simpa [count_comments_exc] using h
  | case3 name rest m ih =>
    simp only [count_comments_exc]
    exact ih (bumpCount_keys_nodup _ _ h)
  | case4 name cs rest m m2 heq ih1 ih2 =>
    have h2 := ih1 (bumpCount_keys_nodup _ _ h)
    rw [heq] at h2
    simp only [count_comments_exc, heq]
    exact ih2 h2
  | case5 name cs rest m m2 heq ih1 =>
    have h2 := ih1 (bumpCount_keys_nodup _ _ h)
    rw [heq] at h2
    simp only [count_comments_exc, heq]
    exact h2

/-- Claim C10 counterexample: a decoded comments payload whose second
list element is not a JSON object makes the walk of scraper.py lines
152-159 count the first node and then raise; the `except` on line 161
catches it, so the returned record carries unique_commenters = 0
together with the NON-empty partially accumulated {a: 1}: the two fields
disagree (0 is not the number of distinct keys, 1). -/
theorem unique_commenters_mismatch_cex :
    (commentsPhase (CommentsPage.payload
        [CNode.obj (some "a") none, CNode.nonObj])).unique_commenters = 0 ∧
    (commentsPhase (CommentsPage.payload
        [CNode.obj (some "a") none, CNode.nonObj])).commenter_counts
      = [("a", 1)] ∧
    (commentsPhase (CommentsPage.payload
        [CNode.obj (some "a") none, CNode.nonObj])).unique_commenters
      ≠ (((commentsPhase (CommentsPage.payload
          [CNode.obj (some "a") none, CNode.nonObj])).commenter_counts.map
            Prod.fst).dedup).length ∧
    scrape_post "dbd-01-01-2025-x"
        (PostPage.ok ⟨"T", "2025-01-01", 2, none⟩ none
          (CommentsPage.payload [CNode.obj (some "a") none, CNode.nonObj]))
      = some ⟨"dbd-01-01-2025-x", "T", "2025-01-01", 2, 0, none, none, none,
              [("a", 1)]⟩ := by
  refine ⟨?_, ?_, ?_, ?_⟩ <;>
    simp [scrape_post, commentsPhase, count_comments_exc, bumpCount]

/-- Claim C10 (amended): for every post record returned by the per-post
scrape whose comments walk did not abort on a malformed (non-object)
node — in particular whenever the comments fetch, match, or decode
failed outright, and whenever the payload is a well-formed tree — the
unique_commenters field equals the number of distinct keys of the
commenter_counts mapping; when the walk aborts mid-traversal,
unique_commenters stays 0 while commenter_counts keeps the partially
accumulated entries, and the two fields can disagree. -/
theorem unique_commenters_consistent (cp : CommentsPage)
    (h : ∀ cs, cp = CommentsPage.payload cs →
      (count_comments_exc cs []).2 = true) :
    (commentsPhase cp).unique_commenters
      = (((commentsPhase cp).commenter_counts.map Prod.fst).dedup).length := by
  cases cp with
  | fetchFail cause => rfl
  | noMatch => rfl
  | decodeFail => rfl
  | payload cs =>
    have hok := h cs rfl
    rcases hmk : count_comments_exc cs [] with ⟨m, ok⟩
    rw [hmk] at hok
    simp only at hok
    subst hok
    have hnd : (keysOf (count_comments_exc cs []).1).Nodup :=
      count_comments_exc_keys_nodup cs [] (by simp [keysOf])
    rw [hmk] at hnd
    simp only [commentsPhase, hmk]
    rw [show (m.map Prod.fst) = keysOf m from rfl, List.Nodup.dedup hnd]
    simp [keysOf]

/-- Witness for unique_commenters_consistent: a well-formed one-node
payload has unique_commenters equal to its distinct-key count. -/
theorem unique_commenters_consistent_witness :
    (commentsPhase (CommentsPage.payload
        [CNode.obj (some "a") none])).unique_commenters
      = (((commentsPhase (CommentsPage.payload
          [CNode.obj (some "a") none])).commenter_counts.map
            Prod.fst).dedup).length :=
  unique_commenters_consistent _ (by
    intro cs hcs
    cases hcs
    simp [count_comments_exc, bumpCount])

end WFC
